import Mathlib

/-!
Verification of the ig-client authenticated session manager and streaming
connection manager. The definitions below are a shallow embedding of
src/session/session.rs, src/transport/http_client.rs, src/error.rs and
src/transport/websocket_client.rs; network transport is abstracted by passing
the server responses in as explicit values, everything else follows the
source code line by line.
-/

namespace IgClient

/-- Status check used by the transport, mirroring reqwest
StatusCode::is_success: true exactly on the 2xx range. -/
def isSuccessStatus (status : Nat) : Bool :=
  200 ≤ status && status < 300

/-- An HTTP response as the transport layer sees it: numeric status code, raw
response headers as name/value pairs, raw body text. -/
structure HttpResponse where
  status : Nat
  headers : List (String × String)
  bodyText : String

/-- Embeds IGHttpClient::extract_header in src/transport/http_client.rs: look a
header up by name; a missing header yields none and is never an error (the Rust
function returns Ok(None) in that case). Header-name lookup is modelled as
exact match. -/
def extract_header (resp : HttpResponse) (name : String) : Option String :=
  (resp.headers.find? (fun kv => kv.1 == name)).map (fun kv => kv.2)

/-- Embeds IGHttpClient::handle_response in src/transport/http_client.rs: on a
2xx status the body text is decoded (JSON deserialization is abstracted into
the decode argument); a decoding failure is the error used by the source
("Failed to parse JSON"); a non-2xx status produces the fallback error. -/
def handle_response {T : Type} (decode : String → Option T) (resp : HttpResponse) :
    Except String T :=
  if isSuccessStatus resp.status then
    match decode resp.bodyText with
    | some body => Except.ok body
    | none => Except.error "Failed to parse JSON"
  else
    Except.error ("Handling response. Status: " ++ toString resp.status)

/-- Embeds IGHttpClient::post_with_headers in src/transport/http_client.rs,
lines 177-218: the CST and X-SECURITY-TOKEN response headers are extracted as
options (a missing header is logged and kept as None, not an error); a 2xx
status returns the decoded body together with both options; a non-2xx status
fails with the formatted generic message (http StatusCode prints its bare
numeric code there). -/
def post_with_headers {T : Type} (decode : String → Option T) (resp : HttpResponse) :
    Except String (T × Option String × Option String) :=
  let cst := extract_header resp "CST"
  let x_security_token := extract_header resp "X-SECURITY-TOKEN"
  if isSuccessStatus resp.status then
    match handle_response decode resp with
    | Except.ok body => Except.ok (body, cst, x_security_token)
    | Except.error e => Except.error e
  else
    Except.error ("POST_WITH_HEADERS response status: " ++ toString resp.status
      ++ " " ++ resp.bodyText)

/-- Embeds the AuthError enum of src/error.rs (payloads of the wrapped foreign
error types are reduced to their display strings). -/
inductive AuthError
  | Network (msg : String)
  | Io (msg : String)
  | Json (msg : String)
  | Other (msg : String)
  | BadCredentials
  | Unexpected (status : Nat)
deriving DecidableEq, Repr

/-- Embeds the AppError enum of src/error.rs. -/
inductive AppError
  | Network (msg : String)
  | Io (msg : String)
  | Json (msg : String)
  | Unexpected (status : Nat)
  | Db (msg : String)
  | Unauthorized
  | NotFound
  | RateLimitExceeded
  | SerializationError (msg : String)
  | WebSocketError (msg : String)
deriving DecidableEq, Repr

/-- Embeds the From conversion of src/error.rs, lines 70-83, applied to the
kind of error the transport actually produces: an anyhow error built from a
formatted string downcasts to none of reqwest::Error, serde_json::Error or
std::io::Error, so the conversion lands in the final arm, AuthError::Other
carrying the message. -/
def auth_error_from_boxed_anyhow (msg : String) : AuthError :=
  AuthError.Other msg

/-- Modelled from the spec: the status-to-AuthError mapping that claim C2
asserts for authenticate (spec section 4.1) - a 401 response maps to
AuthError::BadCredentials and any other non-2xx status s maps to
AuthError::Unexpected(s); 2xx is not an error. Written from the claim wording,
for comparison with the behaviour embedded from the source. -/
def spec_auth_error_mapping (status : Nat) : Option AuthError :=
  if isSuccessStatus status then none
  else if status == 401 then some AuthError.BadCredentials
  else some (AuthError.Unexpected status)

/-- Embeds the Accounts entry struct of src/session/auth.rs. -/
structure AccountsEntry where
  account_id : String
  account_name : String
  preferred : Bool
  account_type : String

/-- Embeds the AccountInfo struct of src/session/auth.rs (f64 fields kept as
Float). -/
structure AccountInfo where
  balance : Float
  deposit : Float
  profit_loss : Float
  available : Float

/-- Embeds the AuthResponse struct (the V1/V2 login response body) of
src/session/auth.rs. -/
structure AuthResponse where
  account_type : String
  account_info : AccountInfo
  currency_iso_code : String
  currency_symbol : String
  current_account_id : String
  lightstreamer_endpoint : String
  accounts : List AccountsEntry
  client_id : String
  timezone_offset : Int
  has_active_demo_accounts : Bool
  has_active_live_accounts : Bool
  trailing_stops_enabled : Bool
  rerouting_environment : Option String
  dealing_enabled : Bool

/-- Embeds the OAuthToken struct of src/session/auth.rs. -/
structure OAuthToken where
  access_token : String
  refresh_token : String
  scope : String
  token_type : String
  expires_in : String
deriving DecidableEq, Repr

/-- Embeds the AuthResponseV3 struct (the V3 login response body; f32 offset
kept as Float). -/
structure AuthResponseV3 where
  account_id : String
  client_id : String
  lightstreamer_endpoint : String
  oauth_token : Option OAuthToken
  timezone_offset : Float

/-- Embeds the AuthVersionResponse enum used by Session in
src/session/session.rs. -/
inductive AuthVersionResponse
  | V1 (r : AuthResponse)
  | V2 (r : AuthResponse)
  | V3 (r : AuthResponseV3)

/-- Embeds the AuthInfo struct stored by Session: the tagged response, the
absolute expiry instant (UTC instants modelled as Int seconds), the optional
legacy tokens and the optional OAuth token. -/
structure AuthInfo where
  auth_response : AuthVersionResponse
  expires_at : Int
  cst : Option String
  x_security_token : Option String
  oauth_token : Option OAuthToken

/-- Embeds the Credentials struct of src/config.rs. -/
structure Credentials where
  username : String
  password : String
  account_id : String
  api_key : String
  client_token : Option String
  account_token : Option String

/-- Embeds the RestApiConfig struct of src/config.rs. -/
structure RestApiConfig where
  base_url : String
  timeout : Nat

/-- Embeds the WebSocketConfig struct of src/config.rs. -/
structure WebSocketConfig where
  url : String
  reconnect_interval : Nat

/-- Embeds the Config struct of src/config.rs. -/
structure Config where
  credentials : Credentials
  rest_api : RestApiConfig
  websocket : WebSocketConfig

/-- Embeds the Session struct of src/session/session.rs. The IGHttpClient field
carries no state beyond the base URL and API key already present in config, and
its network side is abstracted into the response values handed to each
operation, so it is not repeated here. -/
structure Session where
  config : Config
  auth_info : Option AuthInfo
  version : Nat

/-- Outcome of running a Rust function that can panic: either the returned
value or a panic with its message. -/
inductive RustOutcome (α : Type)
  | value (a : α)
  | panicked (msg : String)

/-- Arm taken by the version match inside Session::authenticate
(src/session/session.rs, lines 48-52): versions 1 and 2 share an arm, version
3 has its own, and every other version falls into the catch-all arm that
panics with "Unsupported authentication version". -/
inductive DispatchArm
  | v1v2
  | v3
  | panicUnsupported
deriving DecidableEq, Repr

/-- Embeds the version match of Session::authenticate. -/
def authVersionDispatch : Nat → DispatchArm
  | 1 => DispatchArm.v1v2
  | 2 => DispatchArm.v1v2
  | 3 => DispatchArm.v3
  | _ => DispatchArm.panicUnsupported

/-- Embeds DEFAULT_SESSION_V3_REFRESH of src/constants.rs: the fixed 60-second
lifetime added to the current instant for every stored session. -/
def DEFAULT_SESSION_V3_REFRESH : Int := 60

/-- One authenticate exchange as seen by Session::authenticate: the single
HTTP response the POST to /session produces, together with the JSON decoders
for the two body shapes (deserialization itself is abstracted). -/
structure AuthAttempt where
  resp : HttpResponse
  decodeV12 : String → Option AuthResponse
  decodeV3 : String → Option AuthResponseV3

/-- Embeds Session::authenticate of src/session/session.rs, lines 42-65.
The version field is stored first; versions 1 and 2 run authenticate_v1_v2
(whose result is wrapped in the V1 constructor for both versions, as in the
source, line 103), version 3 runs authenticate_v3 (which also copies the
oauthToken out of the body), and any other version panics. On transport
success the stored snapshot is replaced with the new AuthInfo whose expiry is
now + DEFAULT_SESSION_V3_REFRESH and whose legacy tokens are whatever
post_with_headers extracted (possibly None). On transport failure the error is
propagated with the "Failed to authenticate" context and no snapshot is
stored. -/
def authenticate (s : Session) (version : Nat) (now : Int) (att : AuthAttempt) :
    RustOutcome (Session × Except String Unit) :=
  let s := { s with version := version }
  match authVersionDispatch version with
  | DispatchArm.v1v2 =>
    match post_with_headers att.decodeV12 att.resp with
    | Except.ok (body, cst, x_security_token) =>
      let ai : AuthInfo :=
        { auth_response := AuthVersionResponse.V1 body
          expires_at := now + DEFAULT_SESSION_V3_REFRESH
          cst := cst
          x_security_token := x_security_token
          oauth_token := none }
      RustOutcome.value ({ s with auth_info := some ai }, Except.ok ())
    | Except.error e =>
      RustOutcome.value (s, Except.error ("Failed to authenticate: " ++ e))
  | DispatchArm.v3 =>
    match post_with_headers att.decodeV3 att.resp with
    | Except.ok (body, cst, x_security_token) =>
      let ai : AuthInfo :=
        { auth_response := AuthVersionResponse.V3 body
          expires_at := now + DEFAULT_SESSION_V3_REFRESH
          cst := cst
          x_security_token := x_security_token
          oauth_token := body.oauth_token }
      RustOutcome.value ({ s with auth_info := some ai }, Except.ok ())
    | Except.error e =>
      RustOutcome.value (s, Except.error ("Failed to authenticate: " ++ e))
  | DispatchArm.panicUnsupported =>
    RustOutcome.panicked "Unsupported authentication version"

/-- Embeds Session::ensure_auth of src/session/session.rs, lines 127-137: if a
snapshot is stored and its expiry is strictly in the future the call returns Ok
without touching the network; otherwise it re-runs authenticate with the
version remembered in the session. The Nat component counts the login POSTs
issued (authenticate performs exactly one exchange, the one in att). -/
def ensure_auth (s : Session) (now : Int) (att : AuthAttempt) :
    RustOutcome (Session × Except String Unit) × Nat :=
  match s.auth_info with
  | some ai =>
    if ai.expires_at > now then
      (RustOutcome.value (s, Except.ok ()), 0)
    else
      (authenticate s s.version now att, 1)
  | none => (authenticate s s.version now att, 1)

/-- Embeds Session::get_auth_headers of src/session/session.rs, lines 139-174.
The Rust HashMap is modelled as an association list in insertion order (every
key inserted is a distinct literal, so the length equals the HashMap length).
For V1/V2 snapshots each of the two legacy tokens is inserted only when
present, with no arity check; for V3 snapshots the Authorization header is
inserted only when an OAuth token is present, IG-ACCOUNT-ID is always
inserted, and a final length check collapses anything other than two entries
to the empty map. No snapshot yields the empty map. -/
def get_auth_headers (s : Session) : List (String × String) :=
  match s.auth_info with
  | some ai =>
    match ai.auth_response with
    | AuthVersionResponse.V1 _ | AuthVersionResponse.V2 _ =>
      (match ai.cst with
       | some cst => [("CST", cst)]
       | none => []) ++
      (match ai.x_security_token with
       | some x_security_token => [("X-SECURITY-TOKEN", x_security_token)]
       | none => [])
    | AuthVersionResponse.V3 r =>
      let headers :=
        (match ai.oauth_token with
         | some t => [("Authorization", "Bearer " ++ t.access_token)]
         | none => []) ++
        [("IG-ACCOUNT-ID", r.account_id)]
      if headers.length ≠ 2 then [] else headers
  | none => []

/-- Embeds the AccountSwitchResponse struct of src/session/account.rs. -/
structure AccountSwitchResponse where
  dealing_enabled : Bool
  has_active_demo_accounts : Bool
  has_active_live_accounts : Bool
  trailing_stops_enabled : Bool
deriving DecidableEq, Repr

/-- Value produced by AccountSwitchResponse::default() in the error arm of
Session::switch_account: every boolean field false. -/
def AccountSwitchResponse.defaultValue : AccountSwitchResponse :=
  { dealing_enabled := false
    has_active_demo_accounts := false
    has_active_live_accounts := false
    trailing_stops_enabled := false }

/-- Outcome of one PUT /session exchange as Session::switch_account observes
it: either the decoded response body or the stringified transport error. -/
inductive PutOutcome
  | success (resp : AccountSwitchResponse)
  | failure (msg : String)

/-- Observable side effects of one switch_account call: how many PUT requests
went out and how many re-authentication (login) calls were made. -/
structure SwitchTrace where
  putAttempts : Nat
  reauthCalls : Nat
deriving DecidableEq, Repr

/-- Embeds the account-id update switch_account performs on success
(src/session/session.rs, lines 208-215): the stored response has its current
account id overwritten in the arm matching its version tag. -/
def apply_switch_account_id (s : Session) (account_id : String) : Session :=
  match s.auth_info with
  | some ai =>
    let updated :=
      match ai.auth_response with
      | AuthVersionResponse.V1 r =>
        AuthVersionResponse.V1 { r with current_account_id := account_id }
      | AuthVersionResponse.V2 r =>
        AuthVersionResponse.V2 { r with current_account_id := account_id }
      | AuthVersionResponse.V3 r =>
        AuthVersionResponse.V3 { r with account_id := account_id }
    { s with auth_info := some { ai with auth_response := updated } }
  | none => s

/-- Embeds Session::switch_account of src/session/session.rs, lines 189-225.
The server behaviour is given as the ordered script of PUT outcomes the
endpoint would produce (none only for the impossible empty script). The
function issues exactly one PUT: on success it updates the stored account id
and returns the response; on any error it logs and returns
Ok(AccountSwitchResponse::default()) - it neither retries nor
re-authenticates, and the error is not surfaced. The auth-header assembly that
precedes the PUT in the source is absorbed into the transport abstraction. -/
def switch_account (s : Session) (account_id : String) (set_default : Option Bool)
    (puts : List PutOutcome) :
    Option (Session × Except String AccountSwitchResponse × SwitchTrace) :=
  match puts with
  | [] => none
  | first :: _ =>
    match first with
    | PutOutcome.success r =>
      some (apply_switch_account_id s account_id, Except.ok r,
        { putAttempts := 1, reauthCalls := 0 })
    | PutOutcome.failure _ =>
      some (s, Except.ok AccountSwitchResponse.defaultValue,
        { putAttempts := 1, reauthCalls := 0 })

/-- Prefix test on character lists: true when the first list is an initial
segment of the second. -/
def charListIsPrefixOf : List Char → List Char → Bool
  | [], _ => true
  | _ :: _, [] => false
  | c :: cs, d :: ds => c == d && charListIsPrefixOf cs ds

/-- Occurrence test on character lists: true when the needle (second argument)
occurs contiguously in the haystack (first argument). -/
def charListContains : List Char → List Char → Bool
  | [], pat => pat.isEmpty
  | c :: rest, pat => charListIsPrefixOf pat (c :: rest) || charListContains rest pat

/-- Substring containment test with the semantics of Rust str::contains (used
for the contains checks the websocket client performs on protocol frames):
true when pat occurs contiguously in s. -/
def containsSubstring (s pat : String) : Bool :=
  charListContains s.data pat.data

/-- Splits a character list at every CRLF pair, for inspecting the
CRLF-delimited control frames the streaming protocol uses. -/
def splitCRLFAux : List Char → List Char → List String
  | [], acc => [String.mk acc.reverse]
  | '\r' :: '\n' :: rest, acc => String.mk acc.reverse :: splitCRLFAux rest []
  | c :: rest, acc => splitCRLFAux rest (c :: acc)

/-- Splits a string at every CRLF delimiter. -/
def splitOnCRLF (s : String) : List String :=
  splitCRLFAux s.data []

/-- Embeds the error-marker test of connect_direct
(src/transport/websocket_client.rs, line 179): the handshake response is an
error when it contains any of "error", "Error", "ERROR" or
"Cannot continue". -/
def hasErrorMarker (text : String) : Bool :=
  containsSubstring text "error" || containsSubstring text "Error" ||
    containsSubstring text "ERROR" || containsSubstring text "Cannot continue"

/-- Action connect_direct takes on the text of the single handshake response
frame (src/transport/websocket_client.rs, lines 175-191), one constructor per
source branch. -/
inductive HandshakeAction
  | failServerError
  | recursiveConnect
  | proceedWithWarning
  | proceedConok
deriving DecidableEq, Repr

/-- Embeds the classification of the handshake response text in connect_direct:
error markers are checked first and abort; a LOOP instruction re-invokes
connect (the source line is return self.connect(session).await, a recursive
call, not a retry loop); a response without CONOK merely logs a warning and
continues as success; CONOK continues as success. -/
def classify_handshake (text : String) : HandshakeAction :=
  if hasErrorMarker text then HandshakeAction.failServerError
  else if containsSubstring text "LOOP" then HandshakeAction.recursiveConnect
  else if !(containsSubstring text "CONOK") then HandshakeAction.proceedWithWarning
  else HandshakeAction.proceedConok

/-- The hardcoded ordered Lightstreamer endpoint candidate list of
connect_direct (src/transport/websocket_client.rs, lines 46-50). -/
def lightstreamer_endpoints : List String :=
  ["wss://apd.marketdatasystems.com/lightstreamer",
   "wss://apd145f.marketdatasystems.com/lightstreamer",
   "wss://push.lightstreamer.com/lightstreamer"]

/-- Index of the first endpoint candidate whose WebSocket open succeeds, given
the open outcome of each candidate in order; the loop in connect_direct breaks
at the first success and never revisits a candidate. -/
def firstOpenIndex (opens : List Bool) : Option Nat :=
  opens.findIdx? (fun b => b)

/-- Number of open attempts the candidate loop makes: every candidate up to
and including the first success, or the whole list when none succeeds. -/
def attemptedEndpoints (opens : List Bool) : Nat :=
  match firstOpenIndex opens with
  | some i => i + 1
  | none => opens.length

/-- The single frame connect_direct waits for after sending the
session-creation message: a text frame, a close frame, some non-text frame, or
stream end. -/
inductive HandshakeMsg
  | text (s : String)
  | close
  | nonText
deriving DecidableEq, Repr

/-- Result of a connect / connect_direct call. -/
inductive ConnectResult
  | ok
  | err (e : AppError)
deriving DecidableEq, Repr

/-- Embeds connect_direct of src/transport/websocket_client.rs (lines 38-309)
together with the connect re-entry it performs on LOOP. Arguments: fuel (a
bound on nested re-invocations, pattern-matched only; the stored flag makes
the recursion return at depth one), the current value of the shared connected
flag, the open outcome of each endpoint candidate in order, and the stream of
handshake frames (each invocation that reaches the handshake consumes exactly
one). Returns the final connected flag, the frames left unconsumed, and the
call result. Branches follow the source: no candidate opens - error; after a
candidate opens the connected flag is set to true BEFORE the handshake is
read (line 130); an empty stream - error "No response received from server"; a
text frame is classified by classify_handshake (error marker - error; LOOP -
return self.connect(session).await, where connect returns Ok immediately when
the connected flag is set and otherwise falls back into connect_direct; no
CONOK - warning, success; CONOK - success); a close frame - error; a non-text
frame falls through to the success path. -/
def connect_direct : Nat → Bool → List Bool → List HandshakeMsg →
    Bool × List HandshakeMsg × ConnectResult
  | 0, connected, _, msgs =>
    (connected, msgs, ConnectResult.err (AppError.WebSocketError "fuel exhausted"))
  | Nat.succ fuel, connected, opens, msgs =>
    match firstOpenIndex opens with
    | none =>
      (connected, msgs, ConnectResult.err
        (AppError.WebSocketError "Failed to connect to any Lightstreamer endpoint"))
    | some _ =>
      let connected := true
      match msgs with
      | [] =>
        (connected, [], ConnectResult.err
          (AppError.WebSocketError "No response received from server"))
      | msg :: rest =>
        match msg with
        | HandshakeMsg.text text =>
          match classify_handshake text with
          | HandshakeAction.failServerError =>
            (connected, rest, ConnectResult.err
              (AppError.WebSocketError ("Server returned an error: " ++ text)))
          | HandshakeAction.recursiveConnect =>
            if connected then (connected, rest, ConnectResult.ok)
            else connect_direct fuel connected opens rest
          | HandshakeAction.proceedWithWarning => (connected, rest, ConnectResult.ok)
          | HandshakeAction.proceedConok => (connected, rest, ConnectResult.ok)
        | HandshakeMsg.close =>
          (connected, rest, ConnectResult.err
            (AppError.WebSocketError "Server closed the connection"))
        | HandshakeMsg.nonText => (connected, rest, ConnectResult.ok)

/-- Embeds the Subscription struct of src/transport/model.rs (the kind enum is
kept as its wire name string). -/
structure Subscription where
  id : String
  subscription_type : String
  item : String
deriving DecidableEq, Repr

/-- Embeds the serde serialization of WebSocketMessage::Unsubscribe
(src/transport/model.rs): an internally tagged JSON object with tag UNSUBSCRIBE
and the subscription id. -/
def serialize_unsubscribe (subscription_id : String) : String :=
  "\x7b\"type\":\"UNSUBSCRIBE\",\"subscription_id\":\"" ++ subscription_id ++ "\"\x7d"

/-- State of IgWebSocketClientImpl relevant to subscription management: the
connected flag, the mutex-guarded registry (association list keyed by
subscription id), whether the outbound sender is installed, and the outbound
queue of already-enqueued text frames. -/
structure WsState where
  connected : Bool
  subscriptions : List (String × Subscription)
  txPresent : Bool
  outQueue : List String
deriving DecidableEq, Repr

/-- Embeds send_message of src/transport/websocket_client.rs, lines 408-430,
applied to an already-serialized payload: with a sender installed the frame is
appended to the outbound queue; otherwise the call fails with
WebSocketError "WebSocket not connected" and nothing is enqueued. -/
def send_message_text (st : WsState) (payload : String) : WsState × Except AppError Unit :=
  if st.txPresent then
    ({ st with outQueue := st.outQueue ++ [payload] }, Except.ok ())
  else
    (st, Except.error (AppError.WebSocketError "WebSocket not connected"))

/-- Embeds unsubscribe of src/transport/websocket_client.rs, lines 778-797: an
id absent from the registry fails with WebSocketError "Subscription not
found: id" before anything is sent; a present id is removed from the registry
first and the serialized UNSUBSCRIBE message is then handed to send_message. -/
def unsubscribe (st : WsState) (subscription_id : String) : WsState × Except AppError Unit :=
  if st.subscriptions.any (fun kv => kv.1 == subscription_id) then
    let st := { st with
      subscriptions := st.subscriptions.filter (fun kv => kv.1 != subscription_id) }
    send_message_text st (serialize_unsubscribe subscription_id)
  else
    (st, Except.error
      (AppError.WebSocketError ("Subscription not found: " ++ subscription_id)))

/-- Embeds the session-creation control frame built by connect_direct (line
152) and connect (line 604) of src/transport/websocket_client.rs: the exact
CRLF-delimited text sent over the socket. -/
def create_session_msg (client_id adapter_set user cst x_token : String) : String :=
  "\r\n\r\nLS_cid=" ++ client_id ++
  "\r\nLS_send_sync=false\r\nLS_cause=api\r\nLS_adapter_set=" ++ adapter_set ++
  "\r\nLS_user=" ++ user ++
  "\r\nLS_password=CST-" ++ cst ++ "|XST-" ++ x_token ++ "\r\n"

/-- Modelled from the spec: the session-creation frame format asserted by
claim C9 (spec section 6): exactly the keys LS_cid, LS_adapter_set, LS_user
and LS_password, in that order, with no additional pairs. Written from the
claim wording, for comparison with the frame built by the source. -/
def spec_session_msg (client_id adapter_set user cst x_token : String) : String :=
  "\r\n\r\nLS_cid=" ++ client_id ++
  "\r\nLS_adapter_set=" ++ adapter_set ++
  "\r\nLS_user=" ++ user ++
  "\r\nLS_password=CST-" ++ cst ++ "|XST-" ++ x_token ++ "\r\n"

/-- Amended session-creation frame format: the spec frame with the two extra
pairs LS_send_sync=false and LS_cause=api inserted between LS_cid and
LS_adapter_set, exactly as the source sends it. -/
def amended_session_msg (client_id adapter_set user cst x_token : String) : String :=
  "\r\n\r\nLS_cid=" ++ client_id ++
  "\r\nLS_send_sync=false\r\nLS_cause=api\r\nLS_adapter_set=" ++ adapter_set ++
  "\r\nLS_user=" ++ user ++
  "\r\nLS_password=CST-" ++ cst ++ "|XST-" ++ x_token ++ "\r\n"

/-- Configuration value mirroring the test fixture used by the crate's own
tests (src/session/session.rs, create_test_config). -/
def testConfig : Config :=
  { credentials :=
      { username := "test_user"
        password := "test_password"
        account_id := "ACC1"
        api_key := "test_api_key"
        client_token := none
        account_token := none }
    rest_api := { base_url := "https://demo-api.example.com", timeout := 3600 }
    websocket := { url := "wss://ws.example.com", reconnect_interval := 5 } }

/-- Zeroed account info, as AccountInfo::default() produces. -/
def testAccountInfo : AccountInfo :=
  { balance := 0.0, deposit := 0.0, profit_loss := 0.0, available := 0.0 }

/-- Representative decoded V1/V2 login response body. -/
def testAuthResponse : AuthResponse :=
  { account_type := "CFD"
    account_info := testAccountInfo
    currency_iso_code := "USD"
    currency_symbol := "USD"
    current_account_id := "ACC1"
    lightstreamer_endpoint := "https://demo-apd.marketdatasystems.com"
    accounts := []
    client_id := "CLIENT123"
    timezone_offset := 0
    has_active_demo_accounts := false
    has_active_live_accounts := true
    trailing_stops_enabled := false
    rerouting_environment := none
    dealing_enabled := true }

/-- Representative OAuth token, mirroring the fixture of the crate's tests. -/
def testOAuthToken : OAuthToken :=
  { access_token := "access789"
    refresh_token := "refresh012"
    scope := "scope345"
    token_type := "Bearer"
    expires_in := "3600" }

/-- Representative decoded V3 login response body. -/
def testV3Response : AuthResponseV3 :=
  { account_id := "acc123"
    client_id := "client456"
    lightstreamer_endpoint := "wss://example.com"
    oauth_token := some testOAuthToken
    timezone_offset := 0.0 }

/-- An unauthenticated session as Session::new builds it. -/
def freshSession : Session :=
  { config := testConfig, auth_info := none, version := 1 }

/-- An authenticate attempt whose decoders always succeed with the
representative bodies. -/
def okAtt (resp : HttpResponse) : AuthAttempt :=
  { resp := resp
    decodeV12 := fun _ => some testAuthResponse
    decodeV3 := fun _ => some testV3Response }

/-- A 401 response with the body the platform sends on bad credentials. -/
def resp401 : HttpResponse :=
  { status := 401, headers := [], bodyText := "Unauthorized" }

/-- A 200 response carrying only the CST header, with X-SECURITY-TOKEN
missing. -/
def resp200CstOnly : HttpResponse :=
  { status := 200, headers := [("CST", "cst123")], bodyText := "ok-body" }

/-- Snapshot produced by authenticating against resp200CstOnly at instant 0:
the missing X-SECURITY-TOKEN header is stored as none. -/
def partialLegacyInfo : AuthInfo :=
  { auth_response := AuthVersionResponse.V1 testAuthResponse
    expires_at := 60
    cst := some "cst123"
    x_security_token := none
    oauth_token := none }

/-- A session holding the partial legacy snapshot. -/
def partialLegacySession : Session :=
  { config := testConfig, auth_info := some partialLegacyInfo, version := 1 }

/-- A fully-populated legacy snapshot with a comfortable expiry. -/
def fullLegacyInfo : AuthInfo :=
  { auth_response := AuthVersionResponse.V1 testAuthResponse
    expires_at := 9999
    cst := some "cst123"
    x_security_token := some "token456"
    oauth_token := none }

/-- A session holding the full legacy snapshot. -/
def fullLegacySession : Session :=
  { config := testConfig, auth_info := some fullLegacyInfo, version := 1 }

/-- A V3 snapshot holding an OAuth token, expiring at instant 100. -/
def v3Info : AuthInfo :=
  { auth_response := AuthVersionResponse.V3 testV3Response
    expires_at := 100
    cst := none
    x_security_token := none
    oauth_token := some testOAuthToken }

/-- A session holding the V3 snapshot. -/
def v3Session : Session :=
  { config := testConfig, auth_info := some v3Info, version := 3 }

/-- The PUT outcome switch_account observes when the platform intermittently
rejects the request: the transport error carries the 401 status and the
account-token-invalid error code body. -/
def transient401Put : PutOutcome :=
  PutOutcome.failure
    "PUT request failed. Status: 401, Body: \x7b\"errorCode\":\"error.security.account-token-invalid\"\x7d"

/-- A switch response distinct from the default value, standing for the body a
successful retry would have returned. -/
def retrySuccessResponse : AccountSwitchResponse :=
  { dealing_enabled := true
    has_active_demo_accounts := false
    has_active_live_accounts := true
    trailing_stops_enabled := true }

/-- A connected streaming state with an installed sender and empty registry. -/
def emptyWsState : WsState :=
  { connected := true, subscriptions := [], txPresent := true, outQueue := [] }

/-- A market subscription as subscribe_market builds it. -/
def marketSub : Subscription :=
  { id := "MARKET-1", subscription_type := "MARKET", item := "IX.D.FTSE.DAILY.IP" }

/-- A connected streaming state whose registry holds exactly marketSub. -/
def oneSubWsState : WsState :=
  { connected := true
    subscriptions := [("MARKET-1", marketSub)]
    txPresent := true
    outQueue := [] }

end IgClient

open IgClient

/-- C2 (amended): for every authenticate call, any version, a non-2xx response
status s (401 included) makes the call fail with the single generic error
message built by post_with_headers, leaving the stored snapshot untouched; the
crate's own boxed-error conversion turns that message into AuthError::Other,
so neither AuthError::BadCredentials nor AuthError::Unexpected(s) is ever
produced and 401 is not distinguished from any other non-2xx status. -/
theorem C2_non2xx_generic_error (s : Session) (version : Nat) (now : Int)
    (att : AuthAttempt) (hv : version = 1 ∨ version = 2 ∨ version = 3)
    (hs : isSuccessStatus att.resp.status = false) :
    authenticate s version now att =
      RustOutcome.value ({ s with version := version },
        Except.error ("Failed to authenticate: " ++
          ("POST_WITH_HEADERS response status: " ++ toString att.resp.status
            ++ " " ++ att.resp.bodyText))) ∧
    auth_error_from_boxed_anyhow ("POST_WITH_HEADERS response status: "
        ++ toString att.resp.status ++ " " ++ att.resp.bodyText) =
      AuthError.Other ("POST_WITH_HEADERS response status: "
        ++ toString att.resp.status ++ " " ++ att.resp.bodyText) := by
  refine ⟨?_, rfl⟩
  rcases hv with h | h | h <;> subst h <;>
    simp [authenticate, authVersionDispatch, post_with_headers, hs]

/-- C2 witness: a concrete 500 response is rejected with the generic message
and no BadCredentials value appears. -/
theorem C2_witness :
    authenticate freshSession 3 0
        (okAtt { status := 500, headers := [], bodyText := "oops" }) =
      RustOutcome.value ({ freshSession with version := 3 },
        Except.error ("Failed to authenticate: " ++
          ("POST_WITH_HEADERS response status: " ++
            toString (500 : Nat) ++ " " ++ "oops"))) :=
  (C2_non2xx_generic_error freshSession 3 0
    (okAtt { status := 500, headers := [], bodyText := "oops" })
    (Or.inr (Or.inr rfl)) rfl).1

/-- C2 counterexample: a simulated 401 yields the generic transport error, not
AuthError::BadCredentials (which the spec mapping, transcribed as
spec_auth_error_mapping, demands); under the crate's own conversion the error
is AuthError::Other. -/
theorem C2_counterexample :
    authenticate freshSession 1 0 (okAtt resp401) =
      RustOutcome.value (freshSession,
        Except.error "Failed to authenticate: POST_WITH_HEADERS response status: 401 Unauthorized") ∧
    auth_error_from_boxed_anyhow "POST_WITH_HEADERS response status: 401 Unauthorized" ≠
      AuthError.BadCredentials ∧
    spec_auth_error_mapping 401 = some AuthError.BadCredentials := by
  refine ⟨rfl, by decide, by decide⟩

/-- C3 (amended): for version 1 or 2, a 2xx response whose body decodes makes
authenticate succeed and install a snapshot no matter which of the CST and
X-SECURITY-TOKEN response headers are present: the extracted options (None for
a missing header) are stored as-is, and no AuthError::Unexpected failure
occurs. -/
theorem C3_missing_header_still_succeeds (s : Session) (version : Nat) (now : Int)
    (att : AuthAttempt) (body : AuthResponse)
    (hv : version = 1 ∨ version = 2)
    (hs : isSuccessStatus att.resp.status = true)
    (hd : att.decodeV12 att.resp.bodyText = some body) :
    authenticate s version now att =
      RustOutcome.value ({ s with version := version, auth_info := some ⟨AuthVersionResponse.V1 body,
        now + DEFAULT_SESSION_V3_REFRESH, extract_header att.resp "CST",
        extract_header att.resp "X-SECURITY-TOKEN", none⟩ }, Except.ok ()) := by
  rcases hv with h | h <;> subst h <;>
    simp [authenticate, authVersionDispatch, post_with_headers, handle_response, hs, hd]

/-- C3 witness: authenticating version 1 against a 200 response that carries
only the CST header succeeds and stores None for the missing token. -/
theorem C3_witness :
    authenticate freshSession 1 0 (okAtt resp200CstOnly) =
      RustOutcome.value ({ freshSession with auth_info := some ⟨AuthVersionResponse.V1 testAuthResponse,
        0 + DEFAULT_SESSION_V3_REFRESH, extract_header resp200CstOnly "CST",
        extract_header resp200CstOnly "X-SECURITY-TOKEN", none⟩ }, Except.ok ()) :=
  C3_missing_header_still_succeeds freshSession 1 0 (okAtt resp200CstOnly)
    testAuthResponse (Or.inl rfl) rfl rfl

/-- C3 counterexample: with X-SECURITY-TOKEN absent from a 2xx response,
authenticate returns Ok and installs the snapshot (cst stored, token None) -
it does not fail with AuthError::Unexpected and it does install a snapshot. -/
theorem C3_counterexample :
    authenticate freshSession 1 0 (okAtt resp200CstOnly) =
      RustOutcome.value ({ freshSession with auth_info := some partialLegacyInfo },
        Except.ok ()) ∧
    partialLegacyInfo.x_security_token = none ∧
    extract_header resp200CstOnly "X-SECURITY-TOKEN" = none := ⟨rfl, rfl, rfl⟩

/-- C5 (confirmed): with a stored snapshot whose expiry is strictly in the
future, ensure_auth returns Ok making no network call and leaving the session
unchanged; with no snapshot, or a snapshot at or past its expiry, it performs
exactly one authenticate call, passed the version remembered in the session. -/
theorem C5_ensure_auth_expiry (s : Session) (now : Int) (att : AuthAttempt) :
    (∀ ai, s.auth_info = some ai → ai.expires_at > now →
      ensure_auth s now att = (RustOutcome.value (s, Except.ok ()), 0)) ∧
    ((s.auth_info = none ∨ ∃ ai, s.auth_info = some ai ∧ ai.expires_at ≤ now) →
      ensure_auth s now att = (authenticate s s.version now att, 1)) := by
  constructor
  · intro ai hai hexp
    simp [ensure_auth, hai, hexp]
  · intro h
    rcases h with h | ⟨ai, hai, hexp⟩
    · simp [ensure_auth, h]
    · simp [ensure_auth, hai, not_lt.mpr hexp]

/-- C5 witness: at instant 10 a session whose snapshot expires at 100 is left
alone with zero network calls. -/
theorem C5_witness :
    ensure_auth v3Session 10 (okAtt resp401) =
      (RustOutcome.value (v3Session, Except.ok ()), 0) :=
  (C5_ensure_auth_expiry v3Session 10 (okAtt resp401)).1 v3Info rfl (by decide)

/-- C10 (confirmed): Session::authenticate with any version outside 1, 2, 3
reaches the catch-all match arm and panics with "Unsupported authentication
version" instead of returning an error value; for versions 1, 2 and 3 the
panic arm is unreachable. -/
theorem C10_authenticate_version_panic (s : Session) (version : Nat) (now : Int)
    (att : AuthAttempt) :
    (¬(version = 1 ∨ version = 2 ∨ version = 3) →
      authenticate s version now att =
        RustOutcome.panicked "Unsupported authentication version") ∧
    ((version = 1 ∨ version = 2 ∨ version = 3) →
      ∀ msg, authenticate s version now att ≠ RustOutcome.panicked msg) := by
  constructor
  · intro h
    have harm : authVersionDispatch version = DispatchArm.panicUnsupported := by
      match version with
      | 0 => rfl
      | 1 => exact absurd (Or.inl rfl) h
      | 2 => exact absurd (Or.inr (Or.inl rfl)) h
      | 3 => exact absurd (Or.inr (Or.inr rfl)) h
      | (n + 4) => rfl
    simp [authenticate, harm]
  · intro h msg
    have harm : authVersionDispatch version = DispatchArm.v1v2 ∨
        authVersionDispatch version = DispatchArm.v3 := by
      rcases h with h | h | h <;> subst h
      · exact Or.inl rfl
      · exact Or.inl rfl
      · exact Or.inr rfl
    rcases harm with harm | harm
    · cases hpost : post_with_headers att.decodeV12 att.resp with
      | ok val =>
        obtain ⟨body, cst, x⟩ := val
        simp [authenticate, harm, hpost]
      | error e => simp [authenticate, harm, hpost]
    · cases hpost : post_with_headers att.decodeV3 att.resp with
      | ok val =>
        obtain ⟨body, cst, x⟩ := val
        simp [authenticate, harm, hpost]
      | error e => simp [authenticate, harm, hpost]

/-- C10 witness: version 4 panics with the catch-all message. -/
theorem C10_witness :
    authenticate freshSession 4 0 (okAtt resp401) =
      RustOutcome.panicked "Unsupported authentication version" :=
  (C10_authenticate_version_panic freshSession 4 0 (okAtt resp401)).1 (by decide)

/-- C1 (amended): switch_account issues exactly one PUT and performs zero
re-authentications whatever the server script holds; every outcome is
returned as Ok (the error arm logs and substitutes
AccountSwitchResponse::default(), so no error - the transient 401 included -
is ever surfaced and no retry is attempted); on success the stored account id
is updated and the server body returned. -/
theorem C1_switch_account_no_retry (s : Session) (account_id : String)
    (set_default : Option Bool) (msg : String) (r : AccountSwitchResponse)
    (restF restS : List PutOutcome) :
    (∀ first rest out, switch_account s account_id set_default (first :: rest) = some out →
      out.2.2 = { putAttempts := 1, reauthCalls := 0 } ∧ ∃ v, out.2.1 = Except.ok v) ∧
    switch_account s account_id set_default (PutOutcome.failure msg :: restF) =
      some (s, Except.ok AccountSwitchResponse.defaultValue,
        { putAttempts := 1, reauthCalls := 0 }) ∧
    switch_account s account_id set_default (PutOutcome.success r :: restS) =
      some (apply_switch_account_id s account_id, Except.ok r,
        { putAttempts := 1, reauthCalls := 0 }) := by
  refine ⟨?_, rfl, rfl⟩
  intro first rest out hout
  cases first with
  | success r2 =>
    simp [switch_account] at hout
    subst hout
    exact ⟨rfl, ⟨r2, rfl⟩⟩
  | failure m2 =>
    simp [switch_account] at hout
    subst hout
    exact ⟨rfl, ⟨AccountSwitchResponse.defaultValue, rfl⟩⟩

/-- C1 witness: on a concrete one-element script the single PUT outcome is
returned as Ok with a trace of one attempt and zero re-authentications. -/
theorem C1_witness :
    switch_account fullLegacySession "ACC2" (some true) [transient401Put] =
      some (fullLegacySession, Except.ok AccountSwitchResponse.defaultValue,
        { putAttempts := 1, reauthCalls := 0 }) :=
  (C1_switch_account_no_retry fullLegacySession "ACC2" (some true) "m"
    AccountSwitchResponse.defaultValue [] []).2.1

/-- C1 counterexample: when the first PUT fails with the transient 401
account-token-invalid error and a retry would succeed, switch_account still
returns the default body after a single attempt with zero re-authentications -
not the retried success after one re-authentication that the claim
requires. -/
theorem C1_counterexample :
    switch_account fullLegacySession "ACC2" (some true)
        [transient401Put, PutOutcome.success retrySuccessResponse] =
      some (fullLegacySession, Except.ok AccountSwitchResponse.defaultValue,
        { putAttempts := 1, reauthCalls := 0 }) ∧
    AccountSwitchResponse.defaultValue ≠ retrySuccessResponse := ⟨rfl, by decide⟩

/-- C4 (amended): get_auth_headers returns the empty set when no snapshot is
stored; for a V3 snapshot it returns either the empty set or exactly the
Authorization and IG-ACCOUNT-ID pair (the length check collapses the
missing-OAuth case to empty, never one key); but for a V1/V2 snapshot it
returns exactly the tokens that are present, so it returns both legacy keys,
one single key, or none, according to which of cst and x_security_token are
stored - a one-key set is possible. -/
theorem C4_get_auth_headers_shape (s : Session) :
    (s.auth_info = none → get_auth_headers s = []) ∧
    (∀ ai r, s.auth_info = some ai → ai.auth_response = AuthVersionResponse.V3 r →
      (ai.oauth_token = none → get_auth_headers s = []) ∧
      (∀ t, ai.oauth_token = some t →
        get_auth_headers s =
          [("Authorization", "Bearer " ++ t.access_token),
           ("IG-ACCOUNT-ID", r.account_id)])) ∧
    (∀ ai r, s.auth_info = some ai →
      (ai.auth_response = AuthVersionResponse.V1 r ∨
        ai.auth_response = AuthVersionResponse.V2 r) →
      (ai.cst = none → ai.x_security_token = none → get_auth_headers s = []) ∧
      (∀ c x, ai.cst = some c → ai.x_security_token = some x →
        get_auth_headers s = [("CST", c), ("X-SECURITY-TOKEN", x)]) ∧
      (∀ c, ai.cst = some c → ai.x_security_token = none →
        get_auth_headers s = [("CST", c)]) ∧
      (∀ x, ai.cst = none → ai.x_security_token = some x →
        get_auth_headers s = [("X-SECURITY-TOKEN", x)])) := by
  refine ⟨?_, ?_, ?_⟩
  · intro h
    simp [get_auth_headers, h]
  · intro ai r hai hr
    refine ⟨?_, ?_⟩
    · intro ht
      simp [get_auth_headers, hai, hr, ht]
    · intro t ht
      simp [get_auth_headers, hai, hr, ht]
  · intro ai r hai hr
    refine ⟨?_, ?_, ?_, ?_⟩
    · intro hc hx
      rcases hr with hr | hr <;> simp [get_auth_headers, hai, hr, hc, hx]
    · intro c x hc hx
      rcases hr with hr | hr <;> simp [get_auth_headers, hai, hr, hc, hx]
    · intro c hc hx
      rcases hr with hr | hr <;> simp [get_auth_headers, hai, hr, hc, hx]
    · intro x hc hx
      rcases hr with hr | hr <;> simp [get_auth_headers, hai, hr, hc, hx]

/-- C4 witness: a V3 snapshot with an OAuth token yields exactly the two
expected keys. -/
theorem C4_witness :
    get_auth_headers v3Session =
      [("Authorization", "Bearer " ++ testOAuthToken.access_token),
       ("IG-ACCOUNT-ID", testV3Response.account_id)] :=
  (((C4_get_auth_headers_shape v3Session).2.1 v3Info testV3Response rfl rfl).2
    testOAuthToken rfl)

/-- C4 counterexample: a V1 session storing a CST but no X-SECURITY-TOKEN
yields a one-key header set, which the claim rules out. -/
theorem C4_counterexample :
    get_auth_headers partialLegacySession = [("CST", "cst123")] ∧
    (get_auth_headers partialLegacySession).length = 1 := ⟨rfl, rfl⟩

/-- C6 (amended): a LOOP handshake response makes connect_direct re-invoke
connect recursively (the source line is return self.connect(session).await) -
there is no iterative retry loop and no backoff; because connect_direct has
already set the connected flag before reading the handshake, the recursive
call returns Ok immediately, so exactly one handshake frame is consumed and
the call reports success without any actual reconnection, however many LOOP
responses follow. -/
theorem C6_loop_recursive_connect (fuel : Nat) (opens : List Bool)
    (rest : List HandshakeMsg) (i : Nat) (hopen : firstOpenIndex opens = some i) :
    classify_handshake "LOOP" = HandshakeAction.recursiveConnect ∧
    connect_direct (fuel + 1) false opens (HandshakeMsg.text "LOOP" :: rest) =
      (true, rest, ConnectResult.ok) := by
  have hclass : classify_handshake "LOOP" = HandshakeAction.recursiveConnect := rfl
  refine ⟨hclass, ?_⟩
  simp [connect_direct, hopen, hclass]

/-- C6 witness: a concrete LOOP storm of three frames after a successful open
is answered Ok after consuming only the first frame. -/
theorem C6_witness :
    classify_handshake "LOOP" = HandshakeAction.recursiveConnect ∧
    connect_direct 9 false [true]
        (HandshakeMsg.text "LOOP" :: [HandshakeMsg.text "LOOP", HandshakeMsg.text "LOOP"]) =
      (true, [HandshakeMsg.text "LOOP", HandshakeMsg.text "LOOP"], ConnectResult.ok) :=
  C6_loop_recursive_connect 8 [true]
    [HandshakeMsg.text "LOOP", HandshakeMsg.text "LOOP"] 0 rfl

/-- C6 counterexample: the LOOP arm is the recursive re-invocation of connect,
not an iterative bounded retry - and a run of consecutive LOOP responses is
answered Ok after the first frame, with no reconnection attempts at all
(the remaining frames are never consumed). -/
theorem C6_counterexample :
    classify_handshake "LOOP, please reconnect" = HandshakeAction.recursiveConnect ∧
    connect_direct 5 false [true, true, true]
        [HandshakeMsg.text "LOOP", HandshakeMsg.text "LOOP", HandshakeMsg.text "LOOP"] =
      (true, [HandshakeMsg.text "LOOP", HandshakeMsg.text "LOOP"], ConnectResult.ok) :=
  ⟨rfl, rfl⟩

/-- C7 (amended): the candidate loop of connect_direct retries only the
WebSocket open: when no candidate opens, every candidate is attempted exactly
once and the call fails with WebSocketError "Failed to connect to any
Lightstreamer endpoint" (no AllEndpointsFailed variant exists); once a
candidate opens, no further candidate is ever tried - a handshake response
carrying an error marker aborts the whole call with WebSocketError "Server
returned an error: ...", and a response that is neither an error marker nor
LOOP (CONOK present or not) is accepted as success. -/
theorem C7_connect_direct_candidates (fuel : Nat) (opens : List Bool)
    (msgs rest : List HandshakeMsg) (text : String) :
    (firstOpenIndex opens = none →
      connect_direct (fuel + 1) false opens msgs =
        (false, msgs, ConnectResult.err
          (AppError.WebSocketError "Failed to connect to any Lightstreamer endpoint")) ∧
      attemptedEndpoints opens = opens.length) ∧
    (∀ i, firstOpenIndex opens = some i →
      attemptedEndpoints opens = i + 1 ∧
      (hasErrorMarker text = true →
        connect_direct (fuel + 1) false opens (HandshakeMsg.text text :: rest) =
          (true, rest, ConnectResult.err
            (AppError.WebSocketError ("Server returned an error: " ++ text)))) ∧
      (hasErrorMarker text = false → containsSubstring text "LOOP" = false →
        connect_direct (fuel + 1) false opens (HandshakeMsg.text text :: rest) =
          (true, rest, ConnectResult.ok))) := by
  constructor
  · intro hnone
    constructor
    · simp [connect_direct, hnone]
    · simp [attemptedEndpoints, hnone]
  · intro i hsome
    refine ⟨?_, ?_, ?_⟩
    · simp [attemptedEndpoints, hsome]
    · intro herr
      simp [connect_direct, hsome, classify_handshake, herr]
    · intro herr hloop
      by_cases hc : containsSubstring text "CONOK"
      · simp [connect_direct, hsome, classify_handshake, herr, hloop, hc]
      · simp [connect_direct, hsome, classify_handshake, herr, hloop, hc]

/-- C7 witness: with all three candidates failing to open, each is attempted
exactly once and the call returns the all-endpoints failure message. -/
theorem C7_witness :
    connect_direct 1 false [false, false, false] [] =
      (false, [], ConnectResult.err
        (AppError.WebSocketError "Failed to connect to any Lightstreamer endpoint")) ∧
    attemptedEndpoints [false, false, false] = [false, false, false].length :=
  (C7_connect_direct_candidates 0 [false, false, false] [] [] "x").1 rfl

/-- C7 counterexample: with every candidate able to open and a handshake
response that is neither CONOK nor LOOP, connect_direct succeeds immediately
(an unrecognized response is accepted with only a warning), rather than
advancing through the remaining candidates and returning AllEndpointsFailed;
and when the response carries an error marker the call aborts with the server
error, again without trying the next candidate. -/
theorem C7_counterexample :
    connect_direct 5 false [true, true, true] [HandshakeMsg.text "PROBE"] =
      (true, [], ConnectResult.ok) ∧
    connect_direct 5 false [true, true, true] [HandshakeMsg.text "ERROR Cannot continue"] =
      (true, [], ConnectResult.err
        (AppError.WebSocketError "Server returned an error: ERROR Cannot continue")) :=
  ⟨rfl, rfl⟩

/-- C8 (amended): unsubscribe on an id absent from the registry fails with
WebSocketError "Subscription not found: id" (not the distinct
AppError::NotFound variant) and enqueues nothing, leaving the state untouched;
on a present id the entry is removed and, with a sender installed, the
serialized UNSUBSCRIBE control message is enqueued; without a sender the entry
is still removed but nothing is enqueued and the call fails with
WebSocketError "WebSocket not connected". -/
theorem C8_unsubscribe_behavior (st : WsState) (subscription_id : String) :
    (st.subscriptions.any (fun kv => kv.1 == subscription_id) = false →
      unsubscribe st subscription_id =
        (st, Except.error
          (AppError.WebSocketError ("Subscription not found: " ++ subscription_id)))) ∧
    (st.subscriptions.any (fun kv => kv.1 == subscription_id) = true →
      (st.txPresent = true →
        unsubscribe st subscription_id =
          ({ st with
              subscriptions := st.subscriptions.filter (fun kv => kv.1 != subscription_id),
              outQueue := st.outQueue ++ [serialize_unsubscribe subscription_id] },
            Except.ok ())) ∧
      (st.txPresent = false →
        unsubscribe st subscription_id =
          ({ st with
              subscriptions := st.subscriptions.filter (fun kv => kv.1 != subscription_id) },
            Except.error (AppError.WebSocketError "WebSocket not connected")))) := by
  constructor
  · intro habs
    simp [unsubscribe, habs]
  · intro hpres
    constructor
    · intro htx
      simp [unsubscribe, hpres, send_message_text, htx]
    · intro htx
      simp [unsubscribe, hpres, send_message_text, htx]

/-- C8 witness: removing the one registered subscription removes it from the
registry and enqueues exactly the serialized UNSUBSCRIBE message. -/
theorem C8_witness :
    unsubscribe oneSubWsState "MARKET-1" =
      ({ oneSubWsState with
          subscriptions := oneSubWsState.subscriptions.filter (fun kv => kv.1 != "MARKET-1"),
          outQueue := oneSubWsState.outQueue ++ [serialize_unsubscribe "MARKET-1"] },
        Except.ok ()) :=
  ((C8_unsubscribe_behavior oneSubWsState "MARKET-1").2 rfl).1 rfl

/-- C8 counterexample: an unknown id produces the WebSocketError string, which
is a different value from the NotFound error the claim names, and the state
(outbound queue included) is unchanged. -/
theorem C8_counterexample :
    unsubscribe emptyWsState "SUB-1" =
      (emptyWsState, Except.error (AppError.WebSocketError "Subscription not found: SUB-1")) ∧
    AppError.WebSocketError "Subscription not found: SUB-1" ≠ AppError.NotFound ∧
    (unsubscribe emptyWsState "SUB-1").1.outQueue = [] := ⟨rfl, by decide, rfl⟩

/-- C9 (amended): the session-creation control frame equals, byte for byte,
the claimed format with the two additional pairs LS_send_sync=false and
LS_cause=api inserted between LS_cid and LS_adapter_set; splitting the frame
on CRLF shows exactly the keys LS_cid, LS_send_sync, LS_cause, LS_adapter_set,
LS_user, LS_password in that order. -/
theorem C9_session_frame_format (client_id adapter_set user cst x_token : String) :
    create_session_msg client_id adapter_set user cst x_token =
      amended_session_msg client_id adapter_set user cst x_token ∧
    splitOnCRLF (create_session_msg "CID1" "DEMO" "A1" "cst1" "xst1") =
      ["", "", "LS_cid=CID1", "LS_send_sync=false", "LS_cause=api",
       "LS_adapter_set=DEMO", "LS_user=A1", "LS_password=CST-cst1|XST-xst1", ""] :=
  ⟨rfl, by decide⟩

/-- C9 counterexample: the frame the source builds differs from the frame the
claim specifies (the source inserts LS_send_sync=false and LS_cause=api, which
the claimed byte-exact format forbids). -/
theorem C9_counterexample :
    create_session_msg "CID1" "DEMO" "A1" "cst1" "xst1" ≠
      spec_session_msg "CID1" "DEMO" "A1" "cst1" "xst1" := by decide
